import Mathlib

/-!
Verification of the `httpserver` Go package (dmitrymomot/httpserver):
a shallow embedding of its two components — the server lifecycle
coordinator (`New` / `Start` / `Stop` / `Close`) and the static content
handler (`StaticHandler` / `EmbeddedStaticHandler` / `serveFile` /
`serveStaticHandlerFunc`) — together with theorems settling the spec's
claims about them.

Conventions of the embedding:
* Go `time.Duration` and absolute times are integers counting
  nanoseconds (`Int`), exactly Go's `int64` nanosecond representation.
* Go errors are the inductive `GoError`; `errors.Join(a, b)` is the
  `GoError.join` constructor and `errors.Is` is `errorIs`, which walks
  the join tree the way the Go runtime does.
* A fallible Go call returning `error` is modelled as `Option GoError`
  (`none` = `nil`).
* Stateful handler code is modelled as a pure function from the request
  (plus the ambient clock / HTTP-date codec, which live in `TimeEnv`)
  to the `Response` value it writes.
-/

namespace Httpserver

/-- Model of Go errors as used by this package: the five sentinel errors
declared in the package (`ErrEmptyAddress`, `ErrNilHandler`,
`ErrServerStart`, `ErrServerStop`, `ErrServerForceClose`), the stdlib
sentinels the code compares against (`http.ErrServerClosed`,
`context.Canceled`, `context.DeadlineExceeded`), an opaque other error
carrying its message (`netErr`), and `errors.Join` of two errors. -/
inductive GoError where
  | errServerClosed
  | errCtxCanceled
  | errDeadlineExceeded
  | errEmptyAddress
  | errNilHandler
  | errServerStart
  | errServerStop
  | errServerForceClose
  | netErr (msg : String)
  | join (a b : GoError)
  deriving DecidableEq, Repr

/-- Go `errors.Is(e, target)` for this error model: `e` matches `target`
if it equals it, or, when `e` is an `errors.Join`, if either joined
error matches (the Go runtime unwraps joined errors recursively). -/
def errorIs : GoError → GoError → Bool
  | .join a b, target => (GoError.join a b == target) || errorIs a target || errorIs b target
  | e, target => e == target

/-- Model of the package's `Server` struct together with the
`http.Server` configuration fields `New` initialises: listen address,
handler presence (only nil-ness of the handler is observable to the
claims, so the handler is `Option Unit`), the four timeout/size fields
(durations in nanoseconds), and the shutdown grace period
`shutdownTimeout`. -/
structure GoServer where
  addr : String
  handler : Option Unit
  readTimeout : Int
  writeTimeout : Int
  idleTimeout : Int
  maxHeaderBytes : Int
  shutdownTimeout : Int
  deriving DecidableEq, Repr

/-- Go `type serverOption func(*Server)`: a mutation of the server,
modelled as a function on the state. -/
def ServerOpt : Type := GoServer → GoServer

/-- Option `WithGracefulShutdown(d)`: sets `srv.shutdownTimeout = d`
unconditionally (src/server_options.go lines 93–97). Its own doc
comment promises "If zero, the default timeout of 5 seconds is used",
but the body performs no zero check. -/
def WithGracefulShutdown (d : Int) : ServerOpt :=
  fun s => { s with shutdownTimeout := d }

/-- Constructor `New(addr, handler, opt...)` (src/unnamed/part_004 lines
42–69): rejects an empty address with `ErrEmptyAddress`, then a nil
handler with `ErrNilHandler`; otherwise builds the server with the
default timeouts (read 5s, write 10s, idle 15s, max header bytes 1<<20,
shutdown grace 5s) and applies the options in order. No listener is
bound here, so on `Except.error` no server state exists at all. -/
def New (addr : String) (handler : Option Unit) (opt : List ServerOpt) :
    Except GoError GoServer :=
  if addr = "" then .error .errEmptyAddress
  else if handler = none then .error .errNilHandler
  else .ok (opt.foldl (fun s o => o s)
    { addr := addr
      handler := handler
      readTimeout := 5000000000
      writeTimeout := 10000000000
      idleTimeout := 15000000000
      maxHeaderBytes := 1048576
      shutdownTimeout := 5000000000 })

/-- The accept-loop goroutine of `Start` (src/unnamed/part_004 lines
91–96): given the result of `s.httpServer.ListenAndServe()`, it returns
`nil` when that result is `nil` or matches `http.ErrServerClosed`, and
otherwise `errors.Join(ErrServerStart, err)`. -/
def serveTaskResult (lasErr : Option GoError) : Option GoError :=
  match lasErr with
  | none => none
  | some e => if errorIs e .errServerClosed then none
              else some (.join .errServerStart e)

/-- The final classification in `Start` (src/unnamed/part_004 lines
111–117): the error joined out of the errgroup's `Wait` is surfaced
unless it is `nil` or matches `context.Canceled`, in which case `Start`
returns `nil`. -/
def startReturn (waitErr : Option GoError) : Option GoError :=
  match waitErr with
  | none => none
  | some e => if errorIs e .errCtxCanceled then none else some e

/-- What `Start` returns on a run where the accept-loop goroutine's
result is the (first) error delivered by `errgroup.Wait`: the
composition of the accept-loop wrapping and the `Wait`-level
classification. -/
def startOutcomeFromServe (lasErr : Option GoError) : Option GoError :=
  startReturn (serveTaskResult lasErr)

/-- The shutdown goroutine of `Stop` (src/unnamed/part_004 lines
134–141): given the result of `s.httpServer.Shutdown(shutdownCtx)`, it
returns `nil` when that result is `nil` or matches `context.Canceled`
or `http.ErrServerClosed`, and otherwise
`errors.Join(ErrServerStop, err)`. -/
def stopShutdownTask (shutdownErr : Option GoError) : Option GoError :=
  match shutdownErr with
  | none => none
  | some e =>
      if errorIs e .errCtxCanceled || errorIs e .errServerClosed then none
      else some (.join .errServerStop e)

/-- Method `Close` (src/unnamed/part_004 lines 157–165), as a function
of the result of the underlying `s.httpServer.Close()`: a `nil` or
`http.ErrServerClosed` result is success, anything else is wrapped as
`errors.Join(ErrServerForceClose, err)`. -/
def closeFn (underlyingErr : Option GoError) : Option GoError :=
  match underlyingErr with
  | none => none
  | some e => if errorIs e .errServerClosed then none
              else some (.join .errServerForceClose e)

/-- Result of the underlying `net/http` `(*http.Server).Close()` on a
server that was never started: it has no listeners or connections to
close and returns `nil`; modelled as `none` (stdlib collaborator
behaviour). -/
def neverStartedCloseErr : Option GoError := none

/-- Observable outcome of `Stop`: the error returned to the caller and
whether the forced `Close` fallback was attempted. -/
structure StopOutcome where
  returned : Option GoError
  closeAttempted : Bool
  deriving DecidableEq, Repr

/-- Method `Stop` (src/unnamed/part_004 lines 123–153), as a function of
the underlying `Shutdown` result and the underlying `Close` result: when
the shutdown goroutine yields an error, `Stop` logs it, attempts the
forced close with `_ = s.Close(ctx)` — explicitly discarding the
close's own error — and returns the shutdown error; otherwise it
returns `nil` without touching `Close`. -/
def stopRun (shutdownErr closeErr : Option GoError) : StopOutcome :=
  match stopShutdownTask shutdownErr with
  | none => { returned := none, closeAttempted := false }
  | some e =>
      let _discarded := closeFn closeErr
      { returned := some e, closeAttempted := true }

/-! ### Static content handler (src/unnamed/part_000) -/

/-- Go `os.FileInfo` as consumed by the handler: file name, modification
time in nanoseconds since the Unix epoch (Go `time.Time` is an `int64`
nanosecond instant for this purpose), byte size, and the directory
flag. -/
structure FileInfo where
  name : String
  modTimeNs : Int
  size : Int
  isDir : Bool
  deriving DecidableEq, Repr

/-- Go `time.Time.Unix()` on an instant of `ns` nanoseconds since the
epoch: the stored whole-second part, i.e. the floor of `ns / 1e9`
(Go keeps `sec : int64` with `nsec ∈ [0, 1e9)`). -/
def goUnix (ns : Int) : Int := Int.fdiv ns 1000000000

/-- Lowercase hexadecimal rendering of a `Nat`, as Go's `%x` verb
produces (`Nat.toDigits` uses lowercase digit characters). -/
def hexOfNat (n : Nat) : String := (Nat.toDigits 16 n).asString

/-- Go `fmt.Sprintf("%x", i)` for a signed integer: the magnitude in
lowercase hex, preceded by a minus sign when negative. -/
def goHex (i : Int) : String :=
  if i < 0 then "-" ++ hexOfNat i.natAbs else hexOfNat i.toNat

/-- The ETag computed by `serveFile` (src/unnamed/part_000 line 58):
`fmt.Sprintf("\"%x-%x\"", info.ModTime().Unix(), info.Size())`. -/
def etagOf (info : FileInfo) : String :=
  "\"" ++ goHex (goUnix info.modTimeNs) ++ "-" ++ goHex info.size ++ "\""

/-- Go `strings.Contains(hay, needle)`: some contiguous substring of
`hay` equals `needle` (true for the empty needle). -/
def containsSub (hay needle : String) : Bool :=
  (List.range (hay.toList.length + 1)).any
    (fun i => needle.toList.isPrefixOf (hay.toList.drop i))

/-- The ambient time environment the handler consumes from the stdlib:
`parse` is `time.Parse(http.TimeFormat, ·)` returning the parsed
instant in nanoseconds (`none` on parse error), `fmtTime` is
`t.UTC().Format(http.TimeFormat)`, and `nowNs` is `time.Now()` at the
moment the response is computed. The handler's logic treats these as
opaque collaborators. -/
structure TimeEnv where
  parse : String → Option Int
  fmtTime : Int → String
  nowNs : Int

/-- The parts of the incoming `*http.Request` the handler reads:
`r.URL.Path` and the two conditional headers, with `""` standing for an
absent header exactly as Go's `Header.Get` reports it. -/
structure Request where
  urlPath : String
  ifNoneMatch : String
  ifModifiedSince : String
  deriving DecidableEq, Repr

/-- How the handler finishes writing the response body. -/
inductive BodyAction where
  /-- `http.ServeContent(w, r, name, modtime, file)`: full body with
  standard content negotiation, recording the name and modtime passed. -/
  | serveContent (name : String) (modTimeNs : Int)
  /-- `w.WriteHeader(http.StatusNotModified)`: 304, no body. -/
  | notModified
  /-- `http.NotFound(w, r)`: 404. -/
  | notFound
  deriving DecidableEq, Repr

/-- The response the handler writes: the headers it set explicitly via
`w.Header().Set`, in order, and the body action. -/
structure Response where
  headers : List (String × String)
  action : BodyAction
  deriving DecidableEq, Repr

/-- First value set for a header key, `none` when the handler never set
it (lookup in the written header list). -/
def headerGet (hs : List (String × String)) (k : String) : Option String :=
  match hs with
  | [] => none
  | (k2, v) :: rest => if k2 = k then some v else headerGet rest k

/-- The five caching headers `serveFile` sets when `cacheTTL` is nonzero
(src/unnamed/part_000 lines 62–66), in the order they are set: `ETag`,
`Last-Modified`, `Cache-Control` with `max-age` equal to
`int(cacheTTL.Seconds())` (truncating division of the nanosecond count
by 1e9), `Expires` at now + TTL, and the legacy `Pragma: cache`. -/
def cacheHeaders (env : TimeEnv) (info : FileInfo) (cacheTTL : Int) :
    List (String × String) :=
  [("ETag", etagOf info),
   ("Last-Modified", env.fmtTime info.modTimeNs),
   ("Cache-Control", "public, max-age=" ++ toString (Int.tdiv cacheTTL 1000000000)),
   ("Expires", env.fmtTime (env.nowNs + cacheTTL)),
   ("Pragma", "cache")]

/-- The conditional-request evaluation of `serveFile`
(src/unnamed/part_000 lines 68–87): if `If-None-Match` is non-empty and
contains the ETag as a substring, 304 and stop; else if
`If-Modified-Since` is non-empty, parses, and
`info.ModTime().Before(t.Add(1*time.Second))` — strictly before the
parsed instant plus one second — 304 and stop; otherwise
`http.ServeContent` with the file body. -/
def condAction (env : TimeEnv) (r : Request) (info : FileInfo) : BodyAction :=
  if r.ifNoneMatch ≠ "" ∧ containsSub r.ifNoneMatch (etagOf info) = true then
    .notModified
  else if r.ifModifiedSince ≠ "" then
    match env.parse r.ifModifiedSince with
    | some t =>
        if info.modTimeNs < t + 1000000000 then .notModified
        else .serveContent info.name info.modTimeNs
    | none => .serveContent info.name info.modTimeNs
  else .serveContent info.name info.modTimeNs

/-- Function `serveFile` (src/unnamed/part_000 lines 50–88): with a zero
`cacheTTL` it streams the body via `http.ServeContent` with no headers
of its own; otherwise it sets the five caching headers and runs the
conditional evaluation. -/
def serveFile (env : TimeEnv) (r : Request) (info : FileInfo) (cacheTTL : Int) :
    Response :=
  if cacheTTL = 0 then
    { headers := [], action := .serveContent info.name info.modTimeNs }
  else
    { headers := cacheHeaders env info cacheTTL
      action := condAction env r info }

/-- Outcome of `root.Open(path)` followed by `file.Stat()` on the file
store: the open itself can fail with any store error (`failure`), the
`Stat` can fail (`statFailure`), or both succeed yielding the entry's
metadata. Which error occurred is deliberately not recorded: the
handler never inspects it. -/
inductive OpenResult where
  | failure
  | statFailure
  | entry (info : FileInfo)
  deriving DecidableEq, Repr

/-- An `http.FileSystem` restricted to what the handler observes: the
result of opening and statting each path. -/
def FileStore : Type := String → OpenResult

/-- The response `http.NotFound(w, r)` produces, as this model observes
it: no handler-set headers and the 404 body action. All three failure
exits of the handler call exactly this. -/
def notFoundResponse : Response := { headers := [], action := .notFound }

/-- Go `strings.TrimRight(s, "/")`: removes every trailing slash. -/
def trimRightSlashes (s : String) : String :=
  (s.toList.reverse.dropWhile (fun c => c = '/')).reverse.asString

/-- Go `strings.TrimPrefix(s, pre)`: drops `pre` from the front of `s`
when it is a prefix, otherwise returns `s` unchanged. -/
def trimPrefixStr (s pre : String) : String :=
  if pre.toList.isPrefixOf s.toList then (s.toList.drop pre.toList.length).asString
  else s

/-- Function `serveStaticHandlerFunc` (src/unnamed/part_000 lines
100–133): normalises the public path by trimming trailing slashes once
at construction, then per request strips that prefix from the URL path,
opens the store-relative path, and responds `http.NotFound` when the
open fails, when `Stat` fails, or when the entry is a directory —
otherwise it delegates to `serveFile`. (The deferred `file.Close()` is
not modelled: its error path runs after the response is already
written and cannot change any field this model observes.) -/
def serveStaticHandlerFunc (publicPath : String) (root : FileStore)
    (cacheTTL : Int) : TimeEnv → Request → Response :=
  let pp := trimRightSlashes publicPath
  fun env r =>
    match root (trimPrefixStr r.urlPath pp) with
    | .failure => notFoundResponse
    | .statFailure => notFoundResponse
    | .entry info =>
        if info.isDir then notFoundResponse
        else serveFile env r info cacheTTL

/-- Function `StaticHandler` (src/unnamed/part_000 lines 22–24): a
direct delegation to `serveStaticHandlerFunc`. -/
def StaticHandler (publicPath : String) (root : FileStore) (cacheTTL : Int) :
    TimeEnv → Request → Response :=
  serveStaticHandlerFunc publicPath root cacheTTL

/-- Go `embed.FS` as the handler observes it through `http.FS`: a file
tree answering open-and-stat queries by path. -/
structure EmbedFS where
  resolve : String → OpenResult

/-- Go `http.FS(fs)`: the `http.FileSystem` view of an `embed.FS`. -/
def httpFS (fs : EmbedFS) : FileStore := fs.resolve

/-- Function `EmbeddedStaticHandler` (src/unnamed/part_000 lines 36–38):
delegates to `serveStaticHandlerFunc` over `http.FS(fs)`. -/
def EmbeddedStaticHandler (publicPath : String) (fs : EmbedFS) (cacheTTL : Int) :
    TimeEnv → Request → Response :=
  serveStaticHandlerFunc publicPath (httpFS fs) cacheTTL

/-! ### Theorems: lifecycle coordinator claims -/

/-- C5: `New` fails with `ErrEmptyAddress` on an empty address, fails
with `ErrNilHandler` on a non-empty address with a nil handler, and
succeeds for every non-empty address and non-nil handler; on failure no
server value exists (the `Except.error` branch carries no state and
`New` binds no listener). -/
theorem New_validation (addr : String) (h : Option Unit) (opt : List ServerOpt) :
    (addr = "" → New addr h opt = .error .errEmptyAddress) ∧
    (addr ≠ "" → h = none → New addr h opt = .error .errNilHandler) ∧
    (addr ≠ "" → h ≠ none → ∃ s, New addr h opt = .ok s) := by
  refine ⟨fun ha => by simp [New, ha],
          fun ha hh => by simp [New, ha, hh],
          fun ha hh => ?_⟩
  unfold New
  rw [if_neg ha, if_neg hh]
  exact ⟨_, rfl⟩

/-- Witness for C5: the three branches of `New_validation` at concrete
inputs. -/
theorem New_validation_witness :
    New "" (some ()) [] = .error .errEmptyAddress ∧
    New ":8080" none [] = .error .errNilHandler ∧
    ∃ s, New ":8080" (some ()) [] = .ok s :=
  ⟨(New_validation "" (some ()) []).1 rfl,
   (New_validation ":8080" none []).2.1 (by decide) rfl,
   (New_validation ":8080" (some ()) []).2.2 (by decide) (by simp)⟩

/-- C7: `WithGracefulShutdown 0` stores a zero grace period instead of
falling back to the 5-second default — evaluating the constructor at
the failing input shows the resulting server's `shutdownTimeout` is `0`
while an option-free construction keeps the default `5000000000` ns. -/
theorem withGracefulShutdown_zero_overrides_default :
    (New ":8080" (some ()) [WithGracefulShutdown 0]).map
        (fun s => s.shutdownTimeout) = .ok 0 ∧
    (New ":8080" (some ()) []).map (fun s => s.shutdownTimeout) = .ok 5000000000 ∧
    (0 : Int) ≠ 5000000000 := by
  refine ⟨rfl, rfl, by decide⟩

/-- C9: `Close` on a server that was never started returns `nil` (the
underlying `net/http` close has nothing to close), and in general
`Close` reports a force-close error exactly when the underlying close
fails with something other than `http.ErrServerClosed`, wrapping it
with `ErrServerForceClose`. -/
theorem close_classification (e : GoError) :
    closeFn neverStartedCloseErr = none ∧
    (errorIs e .errServerClosed = true → closeFn (some e) = none) ∧
    (errorIs e .errServerClosed = false →
      closeFn (some e) = some (.join .errServerForceClose e)) := by
  refine ⟨rfl, fun h => by simp [closeFn, h], fun h => by simp [closeFn, h]⟩

/-- Witness for C9: `close_classification` at the already-closed
sentinel and at an ordinary failure. -/
theorem close_classification_witness :
    closeFn (some .errServerClosed) = none ∧
    closeFn (some (.netErr "boom")) =
      some (.join .errServerForceClose (.netErr "boom")) :=
  ⟨(close_classification .errServerClosed).2.1 (by decide),
   (close_classification (.netErr "boom")).2.2 (by decide)⟩

/-- C1 (counterexample): a listen-and-serve error that is itself
`context.Canceled` defeats the claim — it is not the clean
server-closed condition, yet `Start` returns `nil` rather than the
promised `errors.Join(ErrServerStart, err)`: the wrapped error matches
`context.Canceled` through the join, so the final classification
swallows it. -/
theorem start_canceled_cex :
    errorIs .errCtxCanceled .errServerClosed = false ∧
    startOutcomeFromServe (some .errCtxCanceled) = none ∧
    startOutcomeFromServe (some .errCtxCanceled) ≠
      some (.join .errServerStart .errCtxCanceled) := by decide

/-- C1 (amended): a `nil` or `http.ErrServerClosed` accept-loop result
yields `Start = nil`; a cancellation-only joined result yields
`Start = nil`; and any listen-and-serve error matching neither
`http.ErrServerClosed` nor `context.Canceled` is returned as
`errors.Join(ErrServerStart, err)`. -/
theorem start_error_classification (e : GoError)
    (hclosed : errorIs e .errServerClosed = false)
    (hcanc : errorIs e .errCtxCanceled = false) :
    startOutcomeFromServe none = none ∧
    startOutcomeFromServe (some .errServerClosed) = none ∧
    startReturn (some .errCtxCanceled) = none ∧
    startOutcomeFromServe (some e) = some (.join .errServerStart e) := by
  refine ⟨rfl, by decide, by decide, ?_⟩
  have hj : errorIs (.join .errServerStart e) .errCtxCanceled = false := by
    simp [errorIs, hcanc]
  simp [startOutcomeFromServe, serveTaskResult, startReturn, hclosed, hj]

/-- Witness for C1 (amended): `start_error_classification` at a
bind failure. -/
theorem start_error_classification_witness :
    startOutcomeFromServe (some (.netErr "address already in use")) =
      some (.join .errServerStart (.netErr "address already in use")) :=
  (start_error_classification (.netErr "address already in use")
    (by decide) (by decide)).2.2.2

/-- C2 (counterexample): a shutdown sequence that ends with
`context.Canceled` — a cancelled graceful shutdown — is swallowed by
`Stop` as success: no stop failure is returned and no forced close is
attempted, against the claim that cancellation is reported as a stop
failure with a force-close fallback. -/
theorem stop_canceled_cex :
    errorIs .errCtxCanceled .errCtxCanceled = true ∧
    stopRun (some .errCtxCanceled) none =
      { returned := none, closeAttempted := false } := by decide

/-- C2 (amended): when the underlying shutdown fails with any error
matching neither `context.Canceled` nor `http.ErrServerClosed` (in
particular a `context.DeadlineExceeded` timeout), `Stop` returns
`errors.Join(ErrServerStop, err)` and attempts the forced close, and
the returned error is the same for every possible force-close result —
the close's own error is discarded and never replaces the stop
failure. -/
theorem stop_failure_forces_close (e : GoError) (closeErr : Option GoError)
    (hcanc : errorIs e .errCtxCanceled = false)
    (hclosed : errorIs e .errServerClosed = false) :
    stopRun (some e) closeErr =
      { returned := some (.join .errServerStop e), closeAttempted := true } := by
  simp [stopRun, stopShutdownTask, hcanc, hclosed]

/-- Witness for C2 (amended): a timed-out shutdown with a failing
force-close still returns the stop failure and attempts the close. -/
theorem stop_failure_forces_close_witness :
    stopRun (some .errDeadlineExceeded) (some (.netErr "close failed")) =
      { returned := some (.join .errServerStop .errDeadlineExceeded)
        closeAttempted := true } :=
  stop_failure_forces_close .errDeadlineExceeded (some (.netErr "close failed"))
    (by decide) (by decide)

/-! ### Theorems: static content handler claims -/

/-- Concrete time environment for witnesses and counterexamples: a toy
HTTP-date codec whose only parsable string is `"IMS"`, standing for the
epoch instant. -/
def wEnv : TimeEnv :=
  { parse := fun s => if s = "IMS" then some 0 else none
    fmtTime := fun _ => "date"
    nowNs := 0 }

/-- Concrete file metadata for witnesses: epoch modification time and
zero size, so its ETag is `"0-0"` (quoted). -/
def wInfo : FileInfo := { name := "f", modTimeNs := 0, size := 0, isDir := false }

/-- A request carrying the matching `If-None-Match` validator. -/
def wReqETag : Request :=
  { urlPath := "/static/f", ifNoneMatch := "\"0-0\"", ifModifiedSince := "" }

/-- A request carrying only `If-Modified-Since`. -/
def wReqIMS : Request :=
  { urlPath := "/static/f", ifNoneMatch := "", ifModifiedSince := "IMS" }

/-- A request with no conditional headers. -/
def wReqPlain : Request :=
  { urlPath := "/static/f", ifNoneMatch := "", ifModifiedSince := "" }

/-- File metadata sitting exactly on the `If-Modified-Since` tolerance
boundary: its modification time is the parsed instant plus exactly one
second. -/
def wInfoBoundary : FileInfo :=
  { name := "f", modTimeNs := 1000000000, size := 0, isDir := false }

/-- C3 (counterexample): a file modified exactly one second after the
`If-Modified-Since` instant is not strictly after that instant plus the
1-second tolerance, so the claim requires 304 — but
`info.ModTime().Before(t.Add(1*time.Second))` is strict, the check
fails, and the code serves the full body. -/
theorem serveFile_ims_boundary_cex :
    wEnv.parse "IMS" = some 0 ∧
    ¬ ((1000000000 : Int) > 0 + 1000000000) ∧
    (serveFile wEnv wReqIMS wInfoBoundary 600000000000).action ≠ .notModified := by
  decide

/-- C3 (amended): with a nonzero cache TTL the conditional headers are
evaluated in order — a non-empty `If-None-Match` containing the ETag as
a substring yields 304 and stops; otherwise a present, parsable
`If-Modified-Since` whose instant-plus-one-second is strictly greater
than the modification time yields 304 and stops; otherwise the full
body is served. -/
theorem serveFile_conditional_order (env : TimeEnv) (r : Request)
    (info : FileInfo) (ttl : Int) (httl : ttl ≠ 0) :
    ((r.ifNoneMatch ≠ "" ∧ containsSub r.ifNoneMatch (etagOf info) = true) →
      (serveFile env r info ttl).action = .notModified) ∧
    (¬ (r.ifNoneMatch ≠ "" ∧ containsSub r.ifNoneMatch (etagOf info) = true) →
      r.ifModifiedSince ≠ "" →
      ∀ t, env.parse r.ifModifiedSince = some t →
        info.modTimeNs < t + 1000000000 →
        (serveFile env r info ttl).action = .notModified) ∧
    (¬ (r.ifNoneMatch ≠ "" ∧ containsSub r.ifNoneMatch (etagOf info) = true) →
      (∀ t, env.parse r.ifModifiedSince = some t →
        ¬ info.modTimeNs < t + 1000000000) →
      (serveFile env r info ttl).action =
        .serveContent info.name info.modTimeNs) := by
  have hser : (serveFile env r info ttl).action = condAction env r info := by
    simp [serveFile, httl]
  refine ⟨fun h => ?_, fun h hims t ht hlt => ?_, fun h hall => ?_⟩
  · rw [hser]
    simp [condAction, h]
  · rw [hser]
    simp [condAction, h, hims, ht, hlt]
  · rw [hser]
    by_cases hm : r.ifModifiedSince = ""
    · simp [condAction, h, hm]
    · cases hp : env.parse r.ifModifiedSince with
      | none => simp [condAction, h, hm, hp]
      | some t => simp [condAction, h, hm, hp, hall t hp]

/-- Witness for C3 (amended): the three branches of
`serveFile_conditional_order` at concrete requests against `wInfo`. -/
theorem serveFile_conditional_order_witness :
    (serveFile wEnv wReqETag wInfo 600000000000).action = .notModified ∧
    (serveFile wEnv wReqIMS wInfo 600000000000).action = .notModified ∧
    (serveFile wEnv wReqPlain wInfo 600000000000).action =
      .serveContent "f" 0 :=
  ⟨(serveFile_conditional_order wEnv wReqETag wInfo 600000000000
      (by decide)).1 (by decide),
   (serveFile_conditional_order wEnv wReqIMS wInfo 600000000000
      (by decide)).2.1 (by decide) (by decide) 0 (by decide) (by decide),
   (serveFile_conditional_order wEnv wReqPlain wInfo 600000000000
      (by decide)).2.2 (by decide) (fun t ht => nomatch ht)⟩

/-- C4: with TTL 600s the response's `ETag` header is exactly the quoted
hex pair of the modification epoch-seconds and the byte size (shown
concretely: a file modified at epoch-second `1700000000` with size
`1234` gets ETag `"6553f100-4d2"`), `Cache-Control` is exactly
`public, max-age=600`, and the ETag is identical across requests made
under different clocks (`env2`, `r2` arbitrary), since it is derived
only from the file metadata. -/
theorem etag_cache_control_format (env env2 : TimeEnv) (r r2 : Request)
    (info : FileInfo) :
    headerGet (serveFile env r info 600000000000).headers "ETag" =
      some (etagOf info) ∧
    headerGet (serveFile env r info 600000000000).headers "Cache-Control" =
      some "public, max-age=600" ∧
    headerGet (serveFile env r info 600000000000).headers "ETag" =
      headerGet (serveFile env2 r2 info 600000000000).headers "ETag" ∧
    etagOf { name := "a", modTimeNs := 1700000000000000000, size := 1234,
             isDir := false } = "\"6553f100-4d2\"" := by
  refine ⟨rfl, rfl, rfl, by decide⟩

/-- C6: every failure of the static handler's lookup — open error, stat
error, or the path resolving to a directory — produces the identical
`http.NotFound` response, indistinguishable to the client. -/
theorem static_not_found_uniform (publicPath : String) (root : FileStore)
    (cacheTTL : Int) (env : TimeEnv) (r : Request) :
    (root (trimPrefixStr r.urlPath (trimRightSlashes publicPath)) = .failure →
      serveStaticHandlerFunc publicPath root cacheTTL env r = notFoundResponse) ∧
    (root (trimPrefixStr r.urlPath (trimRightSlashes publicPath)) = .statFailure →
      serveStaticHandlerFunc publicPath root cacheTTL env r = notFoundResponse) ∧
    (∀ info,
      root (trimPrefixStr r.urlPath (trimRightSlashes publicPath)) = .entry info →
      info.isDir = true →
      serveStaticHandlerFunc publicPath root cacheTTL env r = notFoundResponse) := by
  refine ⟨fun h => ?_, fun h => ?_, fun info h hdir => ?_⟩
  · simp [serveStaticHandlerFunc, h]
  · simp [serveStaticHandlerFunc, h]
  · simp [serveStaticHandlerFunc, h, hdir]

/-- Concrete file store for witnesses: an open failure at `/a`, a stat
failure at `/b`, a directory at `/d`, and a regular file everywhere
else. -/
def wRoot : FileStore := fun path =>
  if path = "/a" then .failure
  else if path = "/b" then .statFailure
  else if path = "/d" then
    .entry { name := "d", modTimeNs := 0, size := 0, isDir := true }
  else .entry wInfo

/-- Witness for C6: `static_not_found_uniform` at the three failing
paths of `wRoot`. -/
theorem static_not_found_uniform_witness :
    serveStaticHandlerFunc "/static" wRoot 600000000000 wEnv
      { urlPath := "/static/a", ifNoneMatch := "", ifModifiedSince := "" } =
      notFoundResponse ∧
    serveStaticHandlerFunc "/static" wRoot 600000000000 wEnv
      { urlPath := "/static/b", ifNoneMatch := "", ifModifiedSince := "" } =
      notFoundResponse ∧
    serveStaticHandlerFunc "/static" wRoot 600000000000 wEnv
      { urlPath := "/static/d", ifNoneMatch := "", ifModifiedSince := "" } =
      notFoundResponse :=
  ⟨(static_not_found_uniform "/static" wRoot 600000000000 wEnv _).1 (by decide),
   (static_not_found_uniform "/static" wRoot 600000000000 wEnv _).2.1 (by decide),
   (static_not_found_uniform "/static" wRoot 600000000000 wEnv _).2.2
     { name := "d", modTimeNs := 0, size := 0, isDir := true } (by decide) rfl⟩

/-- Headers written by the static handler with zero TTL are empty on
every path through the handler. -/
theorem static_zero_ttl_headers_nil (publicPath : String) (root : FileStore)
    (env : TimeEnv) (r : Request) :
    (serveStaticHandlerFunc publicPath root 0 env r).headers = [] := by
  simp only [serveStaticHandlerFunc]
  cases root (trimPrefixStr r.urlPath (trimRightSlashes publicPath)) with
  | failure => rfl
  | statFailure => rfl
  | entry info =>
      by_cases h : info.isDir <;> simp [h, serveFile, notFoundResponse]

/-- C8: with a zero cache TTL the handler's response never carries
`ETag`, `Cache-Control`, or `Expires` — for every request, file store
and path — and a successfully resolved regular file is streamed via
`http.ServeContent` with no handler-set headers at all. -/
theorem zero_ttl_no_cache_headers (publicPath : String) (root : FileStore)
    (env : TimeEnv) (r : Request) :
    headerGet (serveStaticHandlerFunc publicPath root 0 env r).headers
      "ETag" = none ∧
    headerGet (serveStaticHandlerFunc publicPath root 0 env r).headers
      "Cache-Control" = none ∧
    headerGet (serveStaticHandlerFunc publicPath root 0 env r).headers
      "Expires" = none ∧
    (∀ info,
      root (trimPrefixStr r.urlPath (trimRightSlashes publicPath)) = .entry info →
      info.isDir = false →
      (serveStaticHandlerFunc publicPath root 0 env r).action =
        .serveContent info.name info.modTimeNs) := by
  refine ⟨?_, ?_, ?_, fun info h hdir => ?_⟩
  · rw [static_zero_ttl_headers_nil]; rfl
  · rw [static_zero_ttl_headers_nil]; rfl
  · rw [static_zero_ttl_headers_nil]; rfl
  · simp [serveStaticHandlerFunc, h, hdir, serveFile]

/-- Witness for C8: `zero_ttl_no_cache_headers` at a request `wRoot`
resolves to the regular file `wInfo`. -/
theorem zero_ttl_no_cache_headers_witness :
    headerGet (serveStaticHandlerFunc "/static" wRoot 0 wEnv wReqPlain).headers
      "ETag" = none ∧
    (serveStaticHandlerFunc "/static" wRoot 0 wEnv wReqPlain).action =
      .serveContent "f" 0 :=
  ⟨(zero_ttl_no_cache_headers "/static" wRoot wEnv wReqPlain).1,
   (zero_ttl_no_cache_headers "/static" wRoot wEnv wReqPlain).2.2.2
     wInfo (by decide) rfl⟩

/-- C10: `EmbeddedStaticHandler` and `StaticHandler` over the
`http.FS` view of the same embedded tree are the same handler — both
are the delegation to `serveStaticHandlerFunc`, so they produce equal
responses for every public path, TTL, environment and request. -/
theorem embedded_equals_static (publicPath : String) (fs : EmbedFS)
    (cacheTTL : Int) (env : TimeEnv) (r : Request) :
    EmbeddedStaticHandler publicPath fs cacheTTL env r =
      StaticHandler publicPath (httpFS fs) cacheTTL env r := rfl

end Httpserver
